import Mathlib

/-!
Verification development for the RasPyCam control-plane engine.

The Python sources are shallowly embedded below: pure functions become Lean
functions, the mutable `CameraCoreModel` object becomes a record threaded
through explicit state transformers, machine bytes are `Nat` with explicit
`% 256`, and fallible code returns `Except`.  Two deployment variants of
`CameraCoreModel` exist in the tree; the richer one (directory
`RasPyCam-ARM`) is embedded in namespace `RasPyCamARM`, the simpler one
(directory `arm/_internal`) in namespace `ArmInternal`.  The process loop
(`process.py`) pairs with the `ArmInternal` model.
-/

set_option maxRecDepth 4000
set_option linter.unnecessarySeqFocus false
set_option linter.unreachableTactic false

/-- Decimal digit character for a value below ten; mirrors the digit
produced by Python's decimal formatting. -/
def digitChar : Nat → Char
  | 0 => '0'
  | 1 => '1'
  | 2 => '2'
  | 3 => '3'
  | 4 => '4'
  | 5 => '5'
  | 6 => '6'
  | 7 => '7'
  | 8 => '8'
  | 9 => '9'
  | _ => '*'

/-- Decimal digits of a natural number, most significant first; the list
Python's `str(n)` / `"%d" % n` produces for a non-negative int. -/
def natToDigits (n : Nat) : List Char :=
  if _h : n < 10 then [digitChar n]
  else natToDigits (n / 10) ++ [digitChar (n % 10)]
  termination_by n
  decreasing_by exact Nat.div_lt_self (by omega) (by omega)

/-- Zero-padded decimal rendering, as Python's `"%0wd" % n`: at least `w`
characters, zero-filled on the left, more digits if `n` is larger. -/
def padL (w n : Nat) : List Char :=
  List.replicate (w - (natToDigits n).length) '0' ++ natToDigits n

/-- Boolean prefix test on character lists. -/
def isPre : List Char → List Char → Bool
  | [], _ => true
  | _ :: _, [] => false
  | a :: as, b :: bs => a == b && isPre as bs

/-- Python `str.replace`: replace every non-overlapping occurrence of `pat`
by `rep`, scanning left to right; replaced text is not rescanned.  (The
patterns used by the sources are always non-empty.) -/
def replaceL (pat rep : List Char) : List Char → List Char
  | [] => []
  | c :: rest =>
    if pat ≠ [] ∧ isPre pat (c :: rest) then
      rep ++ replaceL pat rep (rest.drop (pat.length - 1))
    else
      c :: replaceL pat rep rest
  termination_by s => s.length
  decreasing_by
    all_goals simp only [List.length_cons, List.length_drop]
    all_goals omega

/-- Python `int(s)` on a string of decimal digits. -/
def strToNat (s : String) : Nat :=
  s.data.foldl (fun a c => a * 10 + (c.toNat - 48)) 0

/-- Python whitespace characters relevant to `str.rstrip()`. -/
def pyWs (c : Char) : Bool :=
  c = ' ' || c = '\t' || c = '\n' || c = '\r' || c = '\x0b' || c = '\x0c'

/-- Python `str.rstrip()`: drop trailing whitespace. -/
def pyRstrip (s : String) : String :=
  ⟨(s.data.reverse.dropWhile pyWs).reverse⟩

/-- CPython `os.path.splitext` restricted to plain file names (no
directory separators): split at the last dot, unless every character
before that dot is itself a dot (leading dots carry no extension). -/
def splitextL (cs : List Char) : List Char × List Char :=
  match cs.reverse.findIdx? (fun c => c = '.') with
  | none => (cs, [])
  | some k =>
    let i := cs.length - 1 - k
    if (cs.take i).all (fun c => c = '.') then (cs, [])
    else (cs.take i, cs.drop i)

/-- String-level wrapper for `splitextL`. -/
def splitext (s : String) : String × String :=
  ((splitextL s.data).1.asString, (splitextL s.data).2.asString)

/-- Python `str(x)` on an optional int: `"None"` when the variable still
holds `None`, decimal digits otherwise. -/
def pyStr : Option Nat → String
  | none => "None"
  | some n => (natToDigits n).asString

/-- Maximum of a list of naturals, zero for the empty list. -/
def maxList (l : List Nat) : Nat := l.foldl max 0

/-- Python `s.startswith(pre)` (structural, so that it evaluates in the
kernel). -/
def startsWithL (s pre : String) : Bool := isPre pre.data s.data

/-- Python `s.endswith(post)` (structural). -/
def endsWithL (s post : String) : Bool := isPre post.data.reverse s.data.reverse

/-- Python slice `s[:n]` (structural). -/
def takeS (s : String) (n : Nat) : String := ⟨s.data.take n⟩

/-- Python slice `s[n:]` (structural). -/
def dropS (s : String) (n : Nat) : String := ⟨s.data.drop n⟩

example : natToDigits 407 = ['4', '0', '7'] := by simp [natToDigits, digitChar]
example : padL 4 7 = ['0', '0', '0', '7'] := by simp [padL, natToDigits, digitChar]
example : replaceL ['%', 'v'] ['X'] ['a', '%', 'v', 'b'] = ['a', 'X', 'b'] := by
  simp [replaceL, isPre]
example : pyRstrip "ca 1 \n" = "ca 1" := by decide
example : splitext "vid.mp4.v3.th" = ("vid.mp4.v3", ".th") := by decide
example : splitext ".cshrc" = (".cshrc", "") := by decide
example : strToNat "0042" = 42 := by decide

/-- State of a `CameraCoreModel` instance: its status string, the
Picamera2 running flag, the capture/motion/timelapse flags, the motion
counters, the file-index counters, the video-encoder state and the
configuration entries the control plane reads or writes.  Shared by both
deployment variants (their `__init__` sets the same attributes). -/
structure CameraCoreModel where
  current_status : Option String := none
  started : Bool := false
  capturing_still : Bool := false
  capturing_video : Bool := false
  motion_detection : Bool := false
  timelapse_on : Bool := false
  detected_motion : Bool := false
  motion_still_count : Nat := 0
  motion_active_count : Nat := 0
  still_image_index : Nat := 0
  video_file_index : Nat := 0
  current_video_path : Option String := none
  encoder_running : Bool := false
  motion_mode : String := "internal"
  image_output_path : String := "/tmp/media/im_%i_%Y%M%D_%h%m%s.jpg"
  video_output_path : String := "/tmp/media/vi_%v_%Y%M%D_%h%m%s.mp4"
  deriving Repr, DecidableEq

/-- Python truthiness of an optional string: `None` and the empty string
are falsy. -/
def strFalsy : Option String → Bool
  | none => true
  | some s => s = ""

namespace RasPyCamARM

/-- Pure status derivation of the RasPyCam-ARM `set_status`, the code run
when no explicit status applies (model.py lines 323-348): halted when the
camera is not started, `image` during a still capture, then the 2x2
video/idle tokens from the motion-detection and timelapse flags. -/
def derive_status (m : CameraCoreModel) : CameraCoreModel :=
  if ¬ m.started then { m with current_status := some "halted" }
  else if m.capturing_still then { m with current_status := some "image" }
  else if m.capturing_video then
    if m.motion_detection then
      if m.timelapse_on then { m with current_status := some "tl_md_video" }
      else { m with current_status := some "md_video" }
    else
      if m.timelapse_on then { m with current_status := some "tl_video" }
      else { m with current_status := some "video" }
  else
    if m.motion_detection then
      if m.timelapse_on then { m with current_status := some "tl_md_ready" }
      else { m with current_status := some "md_ready" }
    else
      if m.timelapse_on then { m with current_status := some "timelapse" }
      else { m with current_status := some "ready" }

/-- RasPyCam-ARM `CameraCoreModel.set_status` (model.py lines 309-348).
With a truthy explicit token: adopt it when no status is set yet, or when
it starts with `"Error"`; otherwise fall through to the derivation.  With
no (or a falsy) token: always re-derive. -/
def set_status (status : Option String) (m : CameraCoreModel) : CameraCoreModel :=
  if ¬ strFalsy status then
    if strFalsy m.current_status then { m with current_status := status }
    else if startsWithL (status.getD "") "Error" then { m with current_status := status }
    else derive_status m
  else derive_status m

end RasPyCamARM

/-- Status token specified by the precedence list of spec section 4.3
(rules 2-5), as a function of the camera-running, still-capture,
video-capture, motion-detection and timelapse flags.  Written from the
spec's words, to be compared with the code's derivation. -/
def deriveStatusSpec (running still video md tl : Bool) : String :=
  if running = false then "halted"
  else if still = true then "image"
  else if video = true then
    if md && tl then "tl_md_video"
    else if md then "md_video"
    else if tl then "tl_video"
    else "video"
  else
    if md && tl then "tl_md_ready"
    else if md then "md_ready"
    else if tl then "timelapse"
    else "ready"

namespace ArmInternal

/-- Simpler-variant `CameraCoreModel.set_status` (arm/_internal model.py
lines 216-239): any truthy explicit token overrides immediately; otherwise
derive from the flags, video taking precedence over still, with no
timelapse tokens. -/
def set_status (status : Option String) (m : CameraCoreModel) : CameraCoreModel :=
  if ¬ strFalsy status then { m with current_status := status }
  else if ¬ m.started then { m with current_status := some "halted" }
  else if m.capturing_video then
    if m.motion_detection then { m with current_status := some "video_motion" }
    else { m with current_status := some "video" }
  else if m.capturing_still then { m with current_status := some "image" }
  else if m.motion_detection then { m with current_status := some "motion" }
  else { m with current_status := some "ready" }

/-- Simpler-variant `CameraCoreModel.restart` (stops then starts the
camera and forces the status to ready). -/
def restart (m : CameraCoreModel) : CameraCoreModel :=
  { m with started := true, current_status := some "ready" }

end ArmInternal

/-- RasPyCam-ARM `CameraCoreModel.reset_motion_state`. -/
def reset_motion_state (m : CameraCoreModel) : CameraCoreModel :=
  { m with detected_motion := false, motion_still_count := 0, motion_active_count := 0 }

/-- RasPyCam-ARM / arm-internal `CameraCoreModel.stop_all` (identical in
both variants): stop the encoder if it runs, stop the camera, reset the
motion state, clear the capture, motion-detection and timelapse flags. -/
def stop_all (m : CameraCoreModel) : CameraCoreModel :=
  let m := if m.encoder_running then { m with encoder_running := false } else m
  let m := { m with started := false }
  let m := reset_motion_state m
  { m with capturing_video := false, capturing_still := false,
           motion_detection := false, timelapse_on := false }

example :
    (RasPyCamARM.set_status none { started := true, motion_detection := true }).current_status
      = some "md_ready" := by decide
example :
    (RasPyCamARM.set_status none
      { current_status := some "Error: boom", started := true }).current_status
      = some "ready" := by decide
example :
    (ArmInternal.set_status none
      { started := true, capturing_still := true, capturing_video := true }).current_status
      = some "video" := by decide

/-- Components `make_filename` reads from `datetime.now()` and from the
model's file-index counters.  `millisecond` stands for the already-rounded
`round(current_dt.microsecond / 1000)` value. -/
structure NameParts where
  year : Nat := 2024
  month : Nat := 1
  day : Nat := 1
  hour : Nat := 0
  minute : Nat := 0
  second : Nat := 0
  millisecond : Nat := 0
  still_image_index : Nat := 0
  video_file_index : Nat := 0
  deriving Repr, DecidableEq

/-- Substitution table of `CameraCoreModel.make_filename`, in source
order: the eleven `name.replace(...)` calls applied one after the other,
`"%%" -> "%"` last. -/
def subTable (p : NameParts) : List (List Char × List Char) :=
  [ (['%', 'v'], padL 4 p.video_file_index),
    (['%', 'i'], padL 4 p.still_image_index),
    (['%', 'y'], (padL 4 p.year).drop 2),
    (['%', 'Y'], padL 4 p.year),
    (['%', 'M'], padL 2 p.month),
    (['%', 'D'], padL 2 p.day),
    (['%', 'h'], padL 2 p.hour),
    (['%', 'm'], padL 2 p.minute),
    (['%', 's'], padL 2 p.second),
    (['%', 'u'], padL 3 p.millisecond),
    (['%', '%'], ['%']) ]

/-- RasPyCam-ARM / arm-internal `CameraCoreModel.make_filename` (the two
variants are textually identical): the sequential `str.replace` chain over
the template, folded over the substitution table in source order. -/
def make_filename (p : NameParts) (name : String) : String :=
  ⟨(subTable p).foldl (fun n pr => replaceL pr.1 pr.2 n) name.data⟩

/-- NameParts drawn from a time source and the model's current counters,
as `make_filename` does with `self.still_image_index` /
`self.video_file_index`. -/
def namePartsOf (t : NameParts) (m : CameraCoreModel) : NameParts :=
  { t with still_image_index := m.still_image_index,
           video_file_index := m.video_file_index }

namespace RasPyCamARM

/-- RasPyCam-ARM `CameraCoreModel.generate_thumbnail` (model.py lines
420-441): for types `i`/`t` consume the still index, for `v` the video
index, otherwise leave `count = None`; the thumbnail path appends
`"." + filetype + str(count) + ".th.jpg"` to the file path (this variant
keeps the full path, with its extension, as the base).  Returns the
updated model and the thumbnail path (the actual bytes are an external
`shutil.copyfile` of the preview image). -/
def generate_thumbnail (filetype filepath : String) (m : CameraCoreModel) :
    CameraCoreModel × String :=
  let count : Option Nat := none
  let (m, count) :=
    if filetype = "i" ∨ filetype = "t" then
      ({ m with still_image_index := m.still_image_index + 1 }, some m.still_image_index)
    else if filetype = "v" then
      ({ m with video_file_index := m.video_file_index + 1 }, some m.video_file_index)
    else (m, count)
  (m, filepath ++ "." ++ filetype ++ pyStr count ++ ".th.jpg")

/-- One scan step of RasPyCam-ARM `CameraCoreModel.make_filecounts`
(model.py lines 389-414): accumulator `(image_count, video_count)`.  Strip
the extension; if the remainder ends in `.th`, strip that too and read the
final extension segment as one type character plus a digit count; skip
malformed names, otherwise keep the running maximum per type. -/
def update_counts (acc : Nat × Nat) (f : String) : Nat × Nat :=
  let file_without_ext := (splitext f).1
  if endsWithL file_without_ext ".th" then
    let without_th := (splitext file_without_ext).1
    let ext2 := (splitext without_th).2
    let filetype := takeS (dropS ext2 1) 1
    let filecount := dropS ext2 2
    if filetype = "" ∨ filecount = "" then acc
    else if ¬ (filetype = "i" ∨ filetype = "t" ∨ filetype = "v") then acc
    else if ¬ filecount.data.all Char.isDigit then acc
    else
      let n := strToNat filecount
      if filetype = "v" then (acc.1, if acc.2 < n then n else acc.2)
      else (if acc.1 < n then n else acc.1, acc.2)
  else acc

/-- RasPyCam-ARM `CameraCoreModel.make_filecounts` over the combined
directory listing (`os.listdir` of the image and video output
directories; the `set()` de-duplication and `os.path.basename` on plain
listing names do not change the computed maxima, so the fold runs over
the given list directly).  Returns the new
`(still_image_index, video_file_index)`. -/
def make_filecounts (files : List String) : Nat × Nat :=
  let counts := files.foldl update_counts (0, 0)
  (counts.1 + 1, counts.2 + 1)

end RasPyCamARM

/-- Thumbnail-artifact parse of a listed file name, written from the
spec's words for `recoverIndices`: a file whose name (extension stripped)
is a thumbnail (`.th`) encoding a type marker `i`/`t`/`v` and a numeric
count yields that marker and count; anything malformed yields nothing. -/
def thumbInfo (f : String) : Option (String × Nat) :=
  let file_without_ext := (splitext f).1
  if endsWithL file_without_ext ".th" then
    let without_th := (splitext file_without_ext).1
    let ext2 := (splitext without_th).2
    let filetype := takeS (dropS ext2 1) 1
    let filecount := dropS ext2 2
    if filetype = "" ∨ filecount = "" then none
    else if ¬ (filetype = "i" ∨ filetype = "t" ∨ filetype = "v") then none
    else if ¬ filecount.data.all Char.isDigit then none
    else some (filetype, strToNat filecount)
  else none

/-- Counts of still/timelapse thumbnail artifacts (type markers `i` and
`t`) observed in a directory listing. -/
def stillCounts (files : List String) : List Nat :=
  files.filterMap fun f =>
    match thumbInfo f with
    | some (t, n) => if t = "v" then none else some n
    | none => none

/-- Counts of video thumbnail artifacts (type marker `v`) observed in a
directory listing. -/
def videoCounts (files : List String) : List Nat :=
  files.filterMap fun f =>
    match thumbInfo f with
    | some (t, n) => if t = "v" then some n else none
    | none => none

example :
    RasPyCamARM.make_filecounts
      ["im_a.jpg.i3.th.jpg", "im_b.jpg.i7.th.jpg", "im_c.jpg.i2.th.jpg"] = (8, 1) := by
  decide
example : RasPyCamARM.make_filecounts [] = (1, 1) := by decide
example : RasPyCamARM.make_filecounts ["vid.mp4.v12.th.jpg", "junk.txt", "x.q9.th.jpg"]
    = (1, 13) := by decide
example : thumbInfo "im_a.jpg.ix.th.jpg" = none := by decide
example : thumbInfo "im_a.jpg.t21.th.jpg" = some ("t", 21) := by decide

namespace ArmInternal

/-- Simpler-variant `CameraCoreModel.generate_thumbnail` (arm/_internal
model.py lines 306-323): same counter handling as the RasPyCam-ARM
variant, but the thumbnail base is `os.path.splitext(filepath)[0]` (the
media file's extension is stripped first). -/
def generate_thumbnail (filetype filepath : String) (m : CameraCoreModel) :
    CameraCoreModel × String :=
  let filename := (splitext filepath).1
  let count : Option Nat := none
  let (m, count) :=
    if filetype = "i" ∨ filetype = "t" then
      ({ m with still_image_index := m.still_image_index + 1 }, some m.still_image_index)
    else if filetype = "v" then
      ({ m with video_file_index := m.video_file_index + 1 }, some m.video_file_index)
    else (m, count)
  (m, filename ++ "." ++ filetype ++ pyStr count ++ ".th.jpg")

end ArmInternal

/-- List of valid command codes (`CameraCoreModel.VALID_COMMANDS`). -/
def VALID_COMMANDS : List String := ["ca", "im", "md", "mx", "ru"]

/-- Process-layer `read_pipe` (process.py lines 108-134), applied to the
decoded pipe payload (`os.read` returns at most `MAX_COMMAND_LEN` = 256
bytes; the byte cap does not change the parse of what was read): strip
trailing whitespace, slice code `[:2]` and parameter `[3:]`, return the
pair when the string is non-empty and the code is whitelisted, otherwise
nothing (Python `False`). -/
def read_pipe (raw : String) : Option (String × String) :=
  let contents_str := pyRstrip raw
  let cmd_code := takeS contents_str 2
  let cmd_param := dropS contents_str 3
  if 0 < contents_str.data.length then
    if cmd_code ∈ VALID_COMMANDS then some (cmd_code, cmd_param)
    else none
  else none

/-- One iteration of `parse_incoming_commands` acting on the command
queue: append the parsed command when `read_pipe` returned one, leave the
queue alone otherwise. -/
def pipe_step (raw : String) (q : List (String × String)) : List (String × String) :=
  match read_pipe raw with
  | some c => q ++ [c]
  | none => q

/-- Utility `capture_still_request` (capture.py): captures and saves a
still (external effects), renders the output filename from the image
path template, and generates an `"i"` thumbnail for it. -/
def capture_still_request (t : NameParts) (m : CameraCoreModel) : CameraCoreModel :=
  let image_path := make_filename (namePartsOf t m) m.image_output_path
  (ArmInternal.generate_thumbnail "i" image_path m).1

/-- Utility `start_recording` (record.py): no-op (with a log entry) if
already capturing video; otherwise render the output path, remember it,
start the encoder, set the capturing flag and force status `video`. -/
def start_recording (t : NameParts) (m : CameraCoreModel) : CameraCoreModel :=
  if m.capturing_video then m
  else
    let output_path := make_filename (namePartsOf t m) m.video_output_path
    let m := { m with current_video_path := some output_path, encoder_running := true,
                      capturing_video := true }
    ArmInternal.set_status (some "video") m

/-- Utility `stop_recording` (record.py): no-op (with a log entry) if not
capturing video; otherwise stop the encoder if it runs, generate a `"v"`
thumbnail for the recorded path and forget it, clear the capturing flag,
reset motion state, and force status `ready`. -/
def stop_recording (m : CameraCoreModel) : CameraCoreModel :=
  if ¬ m.capturing_video then m
  else
    let m :=
      if m.encoder_running then
        let m := { m with encoder_running := false }
        let m := (ArmInternal.generate_thumbnail "v" (m.current_video_path.getD "") m).1
        { m with current_video_path := none }
      else m
    let m := { m with capturing_video := false }
    let m := reset_motion_state m
    ArmInternal.set_status (some "ready") m

/-- Utility `toggle_cam_record` (record.py). -/
def toggle_cam_record (t : NameParts) (status : Bool) (m : CameraCoreModel) :
    CameraCoreModel :=
  if status then start_recording t m else stop_recording m

/-- Process-layer `update_status_file` (process.py lines 33-55): re-derive
the status with no explicit token and write it to the status file (an
external effect; only the model change is kept). -/
def update_status_file (m : CameraCoreModel) : CameraCoreModel :=
  ArmInternal.set_status none m

/-- Process-layer `execute_command` (process.py lines 137-204), as a state
transformer on the model (thread joins/starts and prints are external
effects).  `ru0` halts: force status `halted`, recreate the worker
threads, `stop_all`.  Other `ru` restarts.  Any other command executes
only while the status is not `halted`; afterwards the status file is
always rewritten with a freshly derived status. -/
def execute_command (t : NameParts) (cmd : String × String) (m : CameraCoreModel) :
    CameraCoreModel :=
  let cmd_code := cmd.1
  let cmd_param := cmd.2
  let m :=
    if cmd_code = "ru" then
      if startsWithL cmd_param "0" then
        let m := { m with current_status := some "halted" }
        stop_all m
      else
        let m := ArmInternal.restart m
        ArmInternal.set_status none m
    else if m.current_status ≠ some "halted" then
      if cmd_code = "im" then capture_still_request t m
      else if cmd_code = "ca" then
        if startsWithL cmd_param "1" then toggle_cam_record t true m
        else toggle_cam_record t false m
      else if cmd_code = "md" then
        if cmd_param = "0" ∨ cmd_param = "" then { m with motion_detection := false }
        else { m with motion_detection := true }
      else if cmd_code = "mx" then
        if cmd_param = "0" then { m with motion_mode := "internal" }
        else if cmd_param = "2" then { m with motion_mode := "monitor" }
        else m
      else m
    else m
  update_status_file m

example : read_pipe "ca 1\n" = some ("ca", "1") := by decide
example : read_pipe "ca" = some ("ca", "") := by decide
example : read_pipe "zz 1" = none := by decide
example : read_pipe "   " = none := by decide
example :
    (execute_command {} ("im", "")
      { current_status := some "halted", started := false, still_image_index := 4 })
      = { current_status := some "halted", started := false, still_image_index := 4 } := by
  decide

/-- Numeric motion settings the detection thread caches from
`cam.config` at startup (`motion_threshold` is the Picamera2 MSE value,
already rescaled from legacy vector units where applicable). -/
structure MotionConfig where
  motion_threshold : ℚ := 7
  motion_startframes : Nat := 3
  motion_stopframes : Nat := 50
  motion_initframes : Nat := 0
  deriving Repr, DecidableEq

/-- Side effects the motion engine performs on a transition: a write to
the motion-signal pipe or an appended motion-log line. -/
inductive Emit where
  | pipeWrite (s : String)
  | logWrite (s : String)
  deriving Repr, DecidableEq

/-- Mean squared error of two frames, with NumPy uint8 semantics: both
the per-pixel subtraction and the squaring wrap modulo 256
(`np.square(np.subtract(cur, prev))` on `uint8` buffers), then the exact
rational mean is taken. -/
def mseQ (cur prev : List Nat) : ℚ :=
  let sq : List Nat := List.zipWith
    (fun a b => ((a % 256 + 256 - b % 256) % 256) ^ 2 % 256) cur prev
  (sq.sum : ℚ) / (sq.length : ℚ)

/-- Scoring block of `motion_detection_thread` (motion_detect.py lines
83-114) given the outcome `above` of the `mse > motion_threshold` test:
above threshold, clear the still counter and, when not yet in detected
motion, bump the active counter, latching detection with a motion-start
signal once it reaches `motion_startframes`; at or below threshold, clear
the active counter and, while in detected motion, bump the still counter,
unlatching with a motion-stop signal once it reaches
`motion_stopframes`.  The signal goes to the motion pipe in internal mode
and to the motion log in monitor mode. -/
def motion_score (cfg : MotionConfig) (m : CameraCoreModel) (above : Bool) :
    CameraCoreModel × List Emit :=
  if above then
    let m := { m with motion_still_count := 0 }
    if ¬ m.detected_motion then
      let m := { m with motion_active_count := m.motion_active_count + 1 }
      if cfg.motion_startframes ≤ m.motion_active_count then
        let m := { m with detected_motion := true }
        (m, if m.motion_mode = "internal" then [Emit.pipeWrite "1"]
            else if m.motion_mode = "monitor" then [Emit.logWrite "Motion start detected"]
            else [])
      else (m, [])
    else (m, [])
  else
    let m := { m with motion_active_count := 0 }
    if m.detected_motion then
      let m := { m with motion_still_count := m.motion_still_count + 1 }
      if cfg.motion_stopframes ≤ m.motion_still_count then
        let m := { m with detected_motion := false }
        (m, if m.motion_mode = "internal" then [Emit.pipeWrite "0"]
            else if m.motion_mode = "monitor" then [Emit.logWrite "Motion stop detected"]
            else [])
      else (m, [])
    else (m, [])

/-- Scoring block applied to a concrete frame pair: the `above` flag is
the source's strict `mse > motion_threshold` comparison. -/
def motion_process (cfg : MotionConfig) (m : CameraCoreModel) (cur prev : List Nat) :
    CameraCoreModel × List Emit :=
  motion_score cfg m (decide (cfg.motion_threshold < mseQ cur prev))

/-- Thread-local state of `motion_detection_thread`: the shared model,
the `prev` frame variable and the cached `motion_init_count`. -/
structure EngineState where
  cam : CameraCoreModel
  prev : Option (List Nat) := none
  initCount : Nat := 0
  deriving Repr, DecidableEq

/-- NumPy truthiness of a frame buffer, as Python's `if prev:` evaluates
it: an empty array is falsy, a one-element array tests its element, and
any larger array raises `ValueError` (ambiguous truth value). -/
def npTruthy (f : List Nat) : Except String Bool :=
  match f with
  | [] => Except.ok false
  | [x] => Except.ok (x % 256 != 0)
  | _ :: _ :: _ => Except.error "ValueError: ambiguous truth value"

/-- Truthiness of the `prev` variable (`None` is falsy; an array uses
NumPy truthiness). -/
def prevTruthy : Option (List Nat) → Except String Bool
  | none => Except.ok false
  | some f => npTruthy f

/-- Main processing of one motion-thread iteration (motion_detect.py
lines 79-115): score the frame pair only when motion detection is enabled
and a previous frame exists; always update `prev` afterwards. -/
def motion_scoring_phase (cfg : MotionConfig) (st : EngineState) (cur : List Nat) :
    Except String (EngineState × List Emit) :=
  if st.cam.motion_detection then
    match st.prev with
    | some p =>
      let r := motion_process cfg st.cam cur p
      Except.ok ({ st with cam := r.1, prev := some cur }, r.2)
    | none => Except.ok ({ st with prev := some cur }, [])
  else Except.ok ({ st with prev := some cur }, [])

/-- One full iteration of `motion_detection_thread`'s loop body
(motion_detect.py lines 64-115) on an incoming low-resolution frame.
While `motion_init_count > 1`: monitor mode zeroes the countdown and
falls through to main processing; otherwise the code evaluates
`if prev:` (NumPy truthiness — which raises on real multi-pixel frames),
decrements the countdown when the frames are identical, updates `prev`
and skips scoring via `continue`. -/
def motion_detection_iter (cfg : MotionConfig) (st : EngineState) (cur : List Nat) :
    Except String (EngineState × List Emit) :=
  if 1 < st.initCount then
    if st.cam.motion_mode = "monitor" then
      motion_scoring_phase cfg { st with initCount := 0 } cur
    else
      match prevTruthy st.prev with
      | Except.error e => Except.error e
      | Except.ok b =>
        let c := if b ∧ cur = st.prev.getD [] then st.initCount - 1 else st.initCount
        Except.ok ({ st with prev := some cur, initCount := c }, [])
  else motion_scoring_phase cfg st cur

example : mseQ [10] [0] = 100 := by norm_num [mseQ]
example : (7 : ℚ) < mseQ [10] [0] := by norm_num [mseQ]
example : mseQ [1] [0] ≤ 7 := by norm_num [mseQ]
example :
    (motion_score {} { motion_detection := true, motion_active_count := 2 } true).1.detected_motion
      = true := by decide
example :
    motion_detection_iter {} { cam := {}, prev := some [5, 5], initCount := 2 } [5, 5]
      = Except.error "ValueError: ambiguous truth value" := rfl
example :
    motion_detection_iter {} { cam := {}, prev := some [5], initCount := 2 } [5]
      = Except.ok ({ cam := {}, prev := some [5], initCount := 1 }, []) := rfl

/-- Helper: the RasPyCam-ARM no-token derivation agrees with the spec's
precedence function on every model. -/
theorem set_status_none_eq_spec (m : CameraCoreModel) :
    (RasPyCamARM.set_status none m).current_status
      = some (deriveStatusSpec m.started m.capturing_still m.capturing_video
          m.motion_detection m.timelapse_on) := by
  obtain ⟨cs, st, cst, cv, md, tl, dm, msc, mac, sii, vfi, cvp, er, mm, iop, vop⟩ := m
  cases st <;> cases cst <;> cases cv <;> cases md <;> cases tl <;>
    simp [RasPyCamARM.set_status, RasPyCamARM.derive_status, deriveStatusSpec, strFalsy]

/-- Claim C1: with no explicit token, RasPyCam-ARM status derivation
follows the spec precedence: `halted` when the camera is not running,
else `image` during a still capture (still takes precedence over a
simultaneous video state), else the 2x2 video tokens, else the 2x2 idle
tokens, all selected by the motion-detection and timelapse flags. -/
theorem set_status_no_token_precedence (m : CameraCoreModel) :
    (RasPyCamARM.set_status none m).current_status
      = some (deriveStatusSpec m.started m.capturing_still m.capturing_video
          m.motion_detection m.timelapse_on) :=
  set_status_none_eq_spec m

/-- Claim C3, counterexample: after forcing the explicit token
`"Error: camera failure"`, the very next recomputation with no explicit
status does not keep the error token: it returns the derived `ready`. -/
theorem error_token_not_sticky_cex :
    (RasPyCamARM.set_status (some "Error: camera failure")
        { current_status := some "ready", started := true }).current_status
      = some "Error: camera failure"
    ∧ (RasPyCamARM.set_status none
        (RasPyCamARM.set_status (some "Error: camera failure")
          { current_status := some "ready", started := true })).current_status
      = some "ready"
    ∧ ("ready" : String) ≠ "Error: camera failure" := by
  decide

/-- Claim C3, amended: an explicit token beginning with `Error` always
overwrites the current status at the moment it is supplied (even when a
status is already set, where other explicit tokens are ignored), but it
is not sticky: the next recomputation with no explicit status replaces it
with the normally derived token, which never begins with `Error`. -/
theorem error_token_overwrite_then_rederive :
    (∀ (m : CameraCoreModel) (s : String), s ≠ "" → startsWithL s "Error" = true →
      (RasPyCamARM.set_status (some s) m).current_status = some s)
    ∧ (∀ m : CameraCoreModel,
        (RasPyCamARM.set_status none m).current_status
          = some (deriveStatusSpec m.started m.capturing_still m.capturing_video
              m.motion_detection m.timelapse_on)
        ∧ startsWithL (deriveStatusSpec m.started m.capturing_still m.capturing_video
              m.motion_detection m.timelapse_on) "Error" = false) := by
  constructor
  · intro m s h1 h2
    by_cases hc : strFalsy m.current_status <;>
      simp [RasPyCamARM.set_status, strFalsy, h1, h2, hc]
  · intro m
    refine ⟨set_status_none_eq_spec m, ?_⟩
    unfold deriveStatusSpec
    cases m.started <;> cases m.capturing_still <;> cases m.capturing_video <;>
      cases m.motion_detection <;> cases m.timelapse_on <;> decide

/-- Witness for the amended C3 theorem at a concrete error token and
model. -/
theorem error_token_overwrite_then_rederive_witness :
    (RasPyCamARM.set_status (some "Error: boom")
        { current_status := some "ready" }).current_status = some "Error: boom" :=
  error_token_overwrite_then_rederive.1
    { current_status := some "ready" } "Error: boom" (by decide) (by decide)

/-- Claim C2: after stripping trailing whitespace, an empty payload
produces no command; otherwise the code is the first two characters and
the parameter the characters from index 3 on, and `read_pipe` accepts and
preserves that exact pair if and only if the code is whitelisted, the
queue gaining exactly that command; any other code is rejected with the
queue length unchanged. -/
theorem read_pipe_contract (raw : String) (q : List (String × String)) :
    (pyRstrip raw = "" → read_pipe raw = none ∧ pipe_step raw q = q)
    ∧ (pyRstrip raw ≠ "" →
        (read_pipe raw = some (takeS (pyRstrip raw) 2, dropS (pyRstrip raw) 3)
          ↔ takeS (pyRstrip raw) 2 ∈ VALID_COMMANDS))
    ∧ (takeS (pyRstrip raw) 2 ∈ VALID_COMMANDS → pyRstrip raw ≠ "" →
        pipe_step raw q = q ++ [(takeS (pyRstrip raw) 2, dropS (pyRstrip raw) 3)])
    ∧ (takeS (pyRstrip raw) 2 ∉ VALID_COMMANDS →
        read_pipe raw = none ∧ pipe_step raw q = q) := by
  have hDef : read_pipe raw
      = if 0 < (pyRstrip raw).data.length then
          (if takeS (pyRstrip raw) 2 ∈ VALID_COMMANDS then
            some (takeS (pyRstrip raw) 2, dropS (pyRstrip raw) 3)
          else none)
        else none := rfl
  have hlen : pyRstrip raw ≠ "" ↔ 0 < (pyRstrip raw).data.length := by
    rcases pyRstrip raw with ⟨l⟩
    cases l with
    | nil =>
      constructor
      · intro h; exact absurd rfl h
      · intro h; exact absurd h (by simp)
    | cons c cs =>
      constructor
      · intro _; simp
      · intro _ h
        exact List.noConfusion (congrArg String.data h)
  refine ⟨?_, ?_, ?_, ?_⟩
  · intro h
    have h0 : ¬ 0 < (pyRstrip raw).data.length := by simp [h]
    constructor
    · rw [hDef, if_neg h0]
    · rw [pipe_step, hDef, if_neg h0]
  · intro h
    rw [hDef, if_pos (hlen.mp h)]
    by_cases hm : takeS (pyRstrip raw) 2 ∈ VALID_COMMANDS <;> simp [hm]
  · intro hm h
    rw [pipe_step, hDef, if_pos (hlen.mp h), if_pos hm]
  · intro hm
    constructor
    · rw [hDef]
      split_ifs with h1 <;> simp [hm]
    · rw [pipe_step, hDef]
      split_ifs with h1 <;> simp [hm]

/-- Witness for the parser contract on a concrete valid and a concrete
invalid payload. -/
theorem read_pipe_contract_witness :
    pipe_step "ca 1hello\n" [] = [("ca", "1hello")]
    ∧ read_pipe "zz 1" = none := by
  refine ⟨?_, ((read_pipe_contract "zz 1" []).2.2.2 (by decide)).1⟩
  have h := (read_pipe_contract "ca 1hello\n" []).2.2.1 (by decide) (by decide)
  simpa using h

/-- Claim C10: `generate_thumbnail` with type `i`/`t` increments exactly
the still index, with `v` exactly the video index, encoding the
pre-increment index in the produced path; any other type changes neither
counter and embeds the literal `None` in the path. -/
theorem generate_thumbnail_effect (m : CameraCoreModel) (ft fp : String) :
    ((ft = "i" ∨ ft = "t") →
      (RasPyCamARM.generate_thumbnail ft fp m).1
          = { m with still_image_index := m.still_image_index + 1 }
      ∧ (RasPyCamARM.generate_thumbnail ft fp m).2
          = fp ++ "." ++ ft ++ pyStr (some m.still_image_index) ++ ".th.jpg")
    ∧ (ft = "v" →
      (RasPyCamARM.generate_thumbnail ft fp m).1
          = { m with video_file_index := m.video_file_index + 1 }
      ∧ (RasPyCamARM.generate_thumbnail ft fp m).2
          = fp ++ "." ++ ft ++ pyStr (some m.video_file_index) ++ ".th.jpg")
    ∧ (ft ≠ "i" → ft ≠ "t" → ft ≠ "v" →
      (RasPyCamARM.generate_thumbnail ft fp m).1 = m
      ∧ (RasPyCamARM.generate_thumbnail ft fp m).2
          = fp ++ "." ++ ft ++ "None" ++ ".th.jpg") := by
  refine ⟨?_, ?_, ?_⟩
  · rintro (rfl | rfl) <;> simp [RasPyCamARM.generate_thumbnail]
  · rintro rfl
    simp [RasPyCamARM.generate_thumbnail]
  · intro h1 h2 h3
    simp [RasPyCamARM.generate_thumbnail, h1, h2, h3, pyStr]

/-- Witness for the thumbnail frame effect at each concrete type. -/
theorem generate_thumbnail_effect_witness :
    (RasPyCamARM.generate_thumbnail "i" "f.jpg" {}).1
        = { ({} : CameraCoreModel) with still_image_index := 1 }
    ∧ (RasPyCamARM.generate_thumbnail "v" "f.mp4" {}).1
        = { ({} : CameraCoreModel) with video_file_index := 1 }
    ∧ (RasPyCamARM.generate_thumbnail "q" "f.jpg" {}).1 = {}
    ∧ (RasPyCamARM.generate_thumbnail "q" "f.jpg" {}).2 = "f.jpg.qNone.th.jpg" := by
  refine ⟨((generate_thumbnail_effect {} "i" "f.jpg").1 (Or.inl rfl)).1,
          ((generate_thumbnail_effect {} "v" "f.mp4").2.1 rfl).1,
          ((generate_thumbnail_effect {} "q" "f.jpg").2.2 (by decide) (by decide) (by decide)).1,
          ?_⟩
  have h := ((generate_thumbnail_effect {} "q" "f.jpg").2.2 (by decide) (by decide) (by decide)).2
  simpa using h

/-- Helper: while halted (camera stopped), a non-`ru` command leaves the
model exactly unchanged: the dispatch is skipped and the trailing status
rewrite re-derives `halted`. -/
theorem execute_command_halted_fix (t : NameParts) (code param : String)
    (m : CameraCoreModel) (hst : m.current_status = some "halted")
    (hrun : m.started = false) (hcode : code ≠ "ru") :
    execute_command t (code, param) m = m := by
  obtain ⟨cs, st, cst, cv, md, tl, dm, msc, mac, sii, vfi, cvp, er, mm, iop, vop⟩ := m
  simp only at hst hrun
  subst hst hrun
  simp [execute_command, update_status_file, ArmInternal.set_status, strFalsy, hcode]

/-- Claim C5: while the status is `halted` (with the camera stopped, as
the halt path guarantees), every command whose code is not `ru` is
rejected with the model — including both file-index counters — left
unchanged; in particular after `ru` with a parameter starting `0`, an
immediately following `im` is rejected and consumes no still-thumbnail
index. -/
theorem halted_rejects_commands (t : NameParts) (code param p q : String)
    (m : CameraCoreModel) :
    (m.current_status = some "halted" → m.started = false → code ≠ "ru" →
      execute_command t (code, param) m = m)
    ∧ (startsWithL p "0" = true →
        execute_command t ("im", q) (execute_command t ("ru", p) m)
          = execute_command t ("ru", p) m
        ∧ (execute_command t ("ru", p) m).still_image_index = m.still_image_index) := by
  constructor
  · exact execute_command_halted_fix t code param m
  · intro hp
    have hm1 : (execute_command t ("ru", p) m).current_status = some "halted"
        ∧ (execute_command t ("ru", p) m).started = false
        ∧ (execute_command t ("ru", p) m).still_image_index = m.still_image_index := by
      obtain ⟨cs, st, cst, cv, md, tl, dm, msc, mac, sii, vfi, cvp, er, mm, iop, vop⟩ := m
      cases er <;>
        simp [execute_command, update_status_file, ArmInternal.set_status, stop_all,
          reset_motion_state, strFalsy, hp]
    exact ⟨execute_command_halted_fix t "im" q _ hm1.1 hm1.2.1 (by decide), hm1.2.2⟩

/-- Witness for the halted-rejection theorem at concrete commands and a
concrete halted model. -/
theorem halted_rejects_commands_witness :
    execute_command {} ("im", "")
        ({ current_status := some "halted", still_image_index := 4 } : CameraCoreModel)
      = { current_status := some "halted", still_image_index := 4 }
    ∧ (execute_command {} ("ru", "0") ({ started := true } : CameraCoreModel)).still_image_index
      = 0 := by
  refine ⟨(halted_rejects_commands {} "im" "" "0" "" _).1 rfl rfl (by decide), ?_⟩
  exact ((halted_rejects_commands {} "im" "" "0" "" { started := true }).2 (by decide)).2

theorem arm_set_status_still (o : Option String) (m : CameraCoreModel) :
    (ArmInternal.set_status o m).still_image_index = m.still_image_index := by
  unfold ArmInternal.set_status
  split_ifs <;> rfl

theorem arm_set_status_video (o : Option String) (m : CameraCoreModel) :
    (ArmInternal.set_status o m).video_file_index = m.video_file_index := by
  unfold ArmInternal.set_status
  split_ifs <;> rfl

theorem stop_all_still (m : CameraCoreModel) :
    (stop_all m).still_image_index = m.still_image_index := by
  unfold stop_all reset_motion_state
  split_ifs <;> rfl

theorem stop_all_video (m : CameraCoreModel) :
    (stop_all m).video_file_index = m.video_file_index := by
  unfold stop_all reset_motion_state
  split_ifs <;> rfl

theorem capture_still_request_counters (t : NameParts) (m : CameraCoreModel) :
    (capture_still_request t m).still_image_index = m.still_image_index + 1
    ∧ (capture_still_request t m).video_file_index = m.video_file_index := by
  simp [capture_still_request, ArmInternal.generate_thumbnail]

theorem start_recording_counters (t : NameParts) (m : CameraCoreModel) :
    (start_recording t m).still_image_index = m.still_image_index
    ∧ (start_recording t m).video_file_index = m.video_file_index := by
  unfold start_recording
  split_ifs <;> simp [arm_set_status_still, arm_set_status_video]

theorem stop_recording_counters (m : CameraCoreModel) :
    (stop_recording m).still_image_index = m.still_image_index
    ∧ m.video_file_index ≤ (stop_recording m).video_file_index := by
  unfold stop_recording
  split_ifs <;>
    simp [arm_set_status_still, arm_set_status_video, reset_motion_state,
      ArmInternal.generate_thumbnail]

theorem execute_command_counters (t : NameParts) (cmd : String × String)
    (m : CameraCoreModel) :
    m.still_image_index ≤ (execute_command t cmd m).still_image_index
    ∧ m.video_file_index ≤ (execute_command t cmd m).video_file_index := by
  rcases cmd with ⟨code, param⟩
  simp only [execute_command, update_status_file]
  split_ifs <;>
    simp [arm_set_status_still, arm_set_status_video, stop_all_still, stop_all_video,
      capture_still_request_counters, start_recording_counters, stop_recording_counters,
      toggle_cam_record, ArmInternal.restart,
      (capture_still_request_counters t m).1, (capture_still_request_counters t m).2,
      (start_recording_counters t m).1, (start_recording_counters t m).2,
      (stop_recording_counters m).1, (stop_recording_counters m).2]

/-- Claim C9: after startup recovery the file-index counters are
monotonically non-decreasing: every command execution leaves each counter
unchanged or incremented, thumbnail generation only increments, and
`stop_all` (halt) and `restart` leave both counters untouched. -/
theorem file_index_monotone (t : NameParts) (cmd : String × String)
    (m : CameraCoreModel) (ft fp : String) :
    (m.still_image_index ≤ (execute_command t cmd m).still_image_index
      ∧ m.video_file_index ≤ (execute_command t cmd m).video_file_index)
    ∧ ((stop_all m).still_image_index = m.still_image_index
      ∧ (stop_all m).video_file_index = m.video_file_index)
    ∧ ((ArmInternal.restart m).still_image_index = m.still_image_index
      ∧ (ArmInternal.restart m).video_file_index = m.video_file_index)
    ∧ (m.still_image_index ≤ (RasPyCamARM.generate_thumbnail ft fp m).1.still_image_index
      ∧ m.video_file_index ≤ (RasPyCamARM.generate_thumbnail ft fp m).1.video_file_index) := by
  refine ⟨execute_command_counters t cmd m, ⟨stop_all_still m, stop_all_video m⟩,
    ⟨rfl, rfl⟩, ?_⟩
  unfold RasPyCamARM.generate_thumbnail
  split_ifs <;> simp

/-- Claim C6, code evaluation at the failing input: with the countdown at
2, internal mode and a two-pixel previous frame identical to the current
frame, the warm-up iteration raises `ValueError` (Python truth-testing of
a multi-pixel NumPy array in `if prev:`) instead of decrementing the
countdown; monitor mode however does force the countdown to 0 and skips
the warm-up phase entirely, as claimed. -/
theorem warmup_truthiness_valueerror :
    motion_detection_iter {} { cam := {}, prev := some [5, 5], initCount := 2 } [5, 5]
      = Except.error "ValueError: ambiguous truth value"
    ∧ motion_detection_iter {}
        { cam := { motion_mode := "monitor" }, prev := some [5, 5], initCount := 2 } [5, 5]
      = Except.ok
          ({ cam := { motion_mode := "monitor" }, prev := some [5, 5], initCount := 0 }, []) :=
  ⟨rfl, rfl⟩

/-- Claim C4: scoring an above-threshold frame clears the still counter
and, when not already detecting, bumps the active counter, latching
detection with a motion-start pipe write (internal mode) exactly when the
counter reaches `motion_startframes`; an at-or-below-threshold frame
clears the active counter and, while detecting, bumps the still counter,
unlatching with a motion-stop write exactly at `motion_stopframes`.  With
the defaults (3/50), detection flips at exactly the third consecutive
above-threshold frame and back after exactly fifty below-threshold
frames. -/
theorem motion_debounce :
    (∀ (cfg : MotionConfig) (m : CameraCoreModel) (cur prev : List Nat),
      cfg.motion_threshold < mseQ cur prev →
      (motion_process cfg m cur prev).1.motion_still_count = 0
      ∧ (m.detected_motion = false →
          (motion_process cfg m cur prev).1.motion_active_count = m.motion_active_count + 1
          ∧ ((motion_process cfg m cur prev).1.detected_motion = true
              ↔ cfg.motion_startframes ≤ m.motion_active_count + 1)
          ∧ (m.motion_mode = "internal" →
              ((motion_process cfg m cur prev).2 = [Emit.pipeWrite "1"]
                ↔ cfg.motion_startframes ≤ m.motion_active_count + 1)))
      ∧ (m.detected_motion = true →
          (motion_process cfg m cur prev).1 = { m with motion_still_count := 0 }
          ∧ (motion_process cfg m cur prev).2 = []))
    ∧ (∀ (cfg : MotionConfig) (m : CameraCoreModel) (cur prev : List Nat),
      mseQ cur prev ≤ cfg.motion_threshold →
      (motion_process cfg m cur prev).1.motion_active_count = 0
      ∧ (m.detected_motion = true →
          (motion_process cfg m cur prev).1.motion_still_count = m.motion_still_count + 1
          ∧ ((motion_process cfg m cur prev).1.detected_motion = false
              ↔ cfg.motion_stopframes ≤ m.motion_still_count + 1)
          ∧ (m.motion_mode = "internal" →
              ((motion_process cfg m cur prev).2 = [Emit.pipeWrite "0"]
                ↔ cfg.motion_stopframes ≤ m.motion_still_count + 1)))
      ∧ (m.detected_motion = false →
          (motion_process cfg m cur prev).1 = { m with motion_active_count := 0 }
          ∧ (motion_process cfg m cur prev).2 = []))
    ∧ (((fun m => (motion_score {} m true).1)^[1] ({} : CameraCoreModel)).detected_motion
          = false
      ∧ ((fun m => (motion_score {} m true).1)^[2] ({} : CameraCoreModel)).detected_motion
          = false
      ∧ ((fun m => (motion_score {} m true).1)^[3] ({} : CameraCoreModel)).detected_motion
          = true
      ∧ (motion_score {} ((fun m => (motion_score {} m true).1)^[1] ({} : CameraCoreModel))
          true).2 = []
      ∧ (motion_score {} ((fun m => (motion_score {} m true).1)^[2] ({} : CameraCoreModel))
          true).2 = [Emit.pipeWrite "1"]
      ∧ ((fun m => (motion_score {} m false).1)^[49]
          ({ detected_motion := true } : CameraCoreModel)).detected_motion = true
      ∧ ((fun m => (motion_score {} m false).1)^[50]
          ({ detected_motion := true } : CameraCoreModel)).detected_motion = false
      ∧ (motion_score {} ((fun m => (motion_score {} m false).1)^[49]
          ({ detected_motion := true } : CameraCoreModel)) false).2
          = [Emit.pipeWrite "0"]) := by
  refine ⟨?_, ?_, by decide⟩
  · intro cfg m cur prev h
    have habove : decide (cfg.motion_threshold < mseQ cur prev) = true := decide_eq_true h
    simp only [motion_process, habove]
    cases hd : m.detected_motion
    · by_cases hs : cfg.motion_startframes ≤ m.motion_active_count + 1 <;>
        simp [motion_score, hd, hs] <;>
        intro hmode <;> simp [hmode]
    · simp [motion_score, hd]
  · intro cfg m cur prev h
    have hbelow : decide (cfg.motion_threshold < mseQ cur prev) = false :=
      decide_eq_false (not_lt.mpr h)
    simp only [motion_process, hbelow]
    cases hd : m.detected_motion
    · simp [motion_score, hd]
    · by_cases hs : cfg.motion_stopframes ≤ m.motion_still_count + 1 <;>
        simp [motion_score, hd, hs] <;>
        intro hmode <;> simp [hmode]

/-- Witness for the debounce theorem at concrete frame pairs above and
below the default threshold. -/
theorem motion_debounce_witness :
    (motion_process {} {} [10] [0]).1.motion_still_count = 0
    ∧ (motion_process {} {} [1] [0]).1.motion_active_count = 0 := by
  constructor
  · exact (motion_debounce.1 {} {} [10] [0] (by show (7 : ℚ) < mseQ [10] [0]; norm_num [mseQ])).1
  · exact (motion_debounce.2.1 {} {} [1] [0] (by show mseQ [1] [0] ≤ (7 : ℚ); norm_num [mseQ])).1

theorem ite_lt_max (a n : Nat) : (if a < n then n else a) = max a n := by
  rcases Nat.lt_or_ge a n with h | h
  · simp [h, Nat.max_eq_right (Nat.le_of_lt h)]
  · simp [Nat.not_lt.mpr h, Nat.max_eq_left h]

theorem foldl_max_shift (l : List Nat) (a : Nat) :
    l.foldl max a = max a (maxList l) := by
  induction l generalizing a with
  | nil => simp [maxList]
  | cons b l ih =>
    have h0 : maxList (b :: l) = max b (maxList l) := by
      show l.foldl max (max 0 b) = _
      rw [ih (max 0 b), Nat.zero_max]
    simp only [List.foldl_cons, ih (max a b), h0, Nat.max_assoc]

theorem maxList_cons (n : Nat) (l : List Nat) :
    maxList (n :: l) = max n (maxList l) := by
  show l.foldl max (max 0 n) = _
  rw [foldl_max_shift, Nat.zero_max]

theorem update_counts_eq (acc : Nat × Nat) (f : String) :
    RasPyCamARM.update_counts acc f
      = match thumbInfo f with
        | none => acc
        | some (tp, n) =>
          if tp = "v" then (acc.1, max acc.2 n) else (max acc.1 n, acc.2) := by
  unfold RasPyCamARM.update_counts thumbInfo
  dsimp only
  split_ifs with h1 h2 h3 h4 h5 <;> simp_all [ite_lt_max] <;> omega

theorem foldl_update_counts (files : List String) (ic vc : Nat) :
    files.foldl RasPyCamARM.update_counts (ic, vc)
      = (max ic (maxList (stillCounts files)), max vc (maxList (videoCounts files))) := by
  induction files generalizing ic vc with
  | nil => simp [maxList, stillCounts, videoCounts]
  | cons f fs ih =>
    rw [List.foldl_cons, update_counts_eq]
    cases hf : thumbInfo f with
    | none =>
      simp [stillCounts, videoCounts, List.filterMap_cons, hf, ih,
        stillCounts, videoCounts]
    | some pr =>
      obtain ⟨tp, n⟩ := pr
      by_cases hv : tp = "v"
      · simp only [hv, if_pos rfl, ih, stillCounts, videoCounts, List.filterMap_cons, hf]
        simp [maxList_cons, Nat.max_assoc]
      · simp only [if_neg hv, ih, stillCounts, videoCounts, List.filterMap_cons, hf]
        simp [hv, maxList_cons, Nat.max_assoc]

/-- Claim C7: index recovery sets the next still index to one plus the
maximum count over `i`/`t` thumbnail artifacts in the listings and the
next video index to one plus the maximum over `v` artifacts; no matching
file yields 1 (so still counts 3, 7, 2 yield 8 and an empty listing
yields 1), and malformed names are skipped without affecting the
result. -/
theorem make_filecounts_recovery :
    (∀ files, RasPyCamARM.make_filecounts files
        = (maxList (stillCounts files) + 1, maxList (videoCounts files) + 1))
    ∧ RasPyCamARM.make_filecounts [] = (1, 1)
    ∧ RasPyCamARM.make_filecounts
        ["im_a.jpg.i3.th.jpg", "im_b.jpg.i7.th.jpg", "im_c.jpg.i2.th.jpg"] = (8, 1)
    ∧ (∀ f files, thumbInfo f = none →
        RasPyCamARM.make_filecounts (f :: files) = RasPyCamARM.make_filecounts files) := by
  refine ⟨?_, by decide, by decide, ?_⟩
  · intro files
    unfold RasPyCamARM.make_filecounts
    dsimp only
    rw [foldl_update_counts]
    simp [Nat.zero_max]
  · intro f files hf
    simp [RasPyCamARM.make_filecounts, List.foldl_cons, update_counts_eq, hf]

/-- Witness: a malformed listing entry is skipped silently. -/
theorem make_filecounts_recovery_witness :
    RasPyCamARM.make_filecounts ["junk.txt"] = RasPyCamARM.make_filecounts [] :=
  make_filecounts_recovery.2.2.2 "junk.txt" [] (by decide)

theorem isPre_self_append (p t : List Char) : isPre p (p ++ t) = true := by
  induction p with
  | nil => rfl
  | cons a as ih => simp [isPre, ih]

theorem replaceL_token (pat rep t : List Char) (hp : pat ≠ []) :
    replaceL pat rep (pat ++ t) = rep ++ replaceL pat rep t := by
  cases pat with
  | nil => exact absurd rfl hp
  | cons a as =>
    have hpre : isPre (a :: as) (a :: (as ++ t)) = true := by
      have := isPre_self_append (a :: as) t
      simpa using this
    simp [replaceL, hpre, List.drop_left]

theorem replaceL_token_self (pat rep : List Char) (hp : pat ≠ []) :
    replaceL pat rep pat = rep := by
  have h := replaceL_token pat rep [] hp
  simpa [replaceL] using h

theorem replaceL_no_percent (tl rep : List Char) (s : List Char)
    (hs : ∀ c ∈ s, c ≠ '%') : replaceL ('%' :: tl) rep s = s := by
  induction s with
  | nil => simp [replaceL]
  | cons c rest ih =>
    have hc : c ≠ '%' := hs c (by simp)
    have hpre : isPre ('%' :: tl) (c :: rest) = false := by
      simp [isPre, Ne.symm hc]
    have ih2 := ih (fun x hx => hs x (List.mem_cons_of_mem _ hx))
    simp [replaceL, hpre, ih2]

theorem replaceL_pair_ne (d c : Char) (rep : List Char) (h : d ≠ c) :
    replaceL ['%', d] rep ['%', c] = ['%', c] := by
  have h1 : isPre ['%', d] ['%', c] = false := by simp [isPre, h]
  have h2 : isPre ['%', d] [c] = false := by simp [isPre]
  simp [replaceL, h1, h2]

theorem replaceL_pct_single (d : Char) (rep : List Char) :
    replaceL ['%', d] rep ['%'] = ['%'] := by
  have h2 : isPre ['%', d] ['%'] = false := by simp [isPre]
  simp [replaceL, h2]

theorem digitChar_ne_pct (k : Nat) : digitChar k ≠ '%' := by
  unfold digitChar
  split <;> decide

theorem natToDigits_ne_pct (n : Nat) : ∀ c ∈ natToDigits n, c ≠ '%' := by
  induction n using Nat.strong_induction_on with
  | _ n ih =>
    intro c hc
    rw [natToDigits] at hc
    by_cases h : n < 10
    · simp [h] at hc
      exact hc ▸ digitChar_ne_pct n
    · simp [h] at hc
      rcases hc with hc | hc
      · exact ih (n / 10) (Nat.div_lt_self (by omega) (by omega)) c hc
      · exact hc ▸ digitChar_ne_pct (n % 10)

theorem padL_ne_pct (w n : Nat) : ∀ c ∈ padL w n, c ≠ '%' := by
  intro c hc
  simp [padL] at hc
  rcases hc with ⟨_, hz⟩ | h
  · subst hz
    decide
  · exact natToDigits_ne_pct n c h

theorem padL_drop_ne_pct (w n k : Nat) : ∀ c ∈ (padL w n).drop k, c ≠ '%' :=
  fun c hc => padL_ne_pct w n c (List.drop_subset _ _ hc)

theorem render_pv (p : NameParts) :
    (subTable p).foldl (fun n pr => replaceL pr.1 pr.2 n) ['%', 'v']
      = padL 4 p.video_file_index := by
  have hpad := padL_ne_pct 4 p.video_file_index
  simp only [subTable, List.foldl_cons, List.foldl_nil]
  rw [replaceL_token_self _ _ (by simp)]
  iterate 10 rw [replaceL_no_percent _ _ _ hpad]

theorem render_pi (p : NameParts) :
    (subTable p).foldl (fun n pr => replaceL pr.1 pr.2 n) ['%', 'i']
      = padL 4 p.still_image_index := by
  have hpad := padL_ne_pct 4 p.still_image_index
  simp only [subTable, List.foldl_cons, List.foldl_nil]
  rw [replaceL_pair_ne 'v' 'i' _ (by decide)]
  rw [replaceL_token_self _ _ (by simp)]
  iterate 9 rw [replaceL_no_percent _ _ _ hpad]

theorem render_py (p : NameParts) :
    (subTable p).foldl (fun n pr => replaceL pr.1 pr.2 n) ['%', 'y']
      = (padL 4 p.year).drop 2 := by
  have hpad := padL_drop_ne_pct 4 p.year 2
  simp only [subTable, List.foldl_cons, List.foldl_nil]
  rw [replaceL_pair_ne 'v' 'y' _ (by decide)]
  rw [replaceL_pair_ne 'i' 'y' _ (by decide)]
  rw [replaceL_token_self _ _ (by simp)]
  iterate 8 rw [replaceL_no_percent _ _ _ hpad]

theorem render_pY4 (p : NameParts) :
    (subTable p).foldl (fun n pr => replaceL pr.1 pr.2 n) ['%', 'Y']
      = padL 4 p.year := by
  have hpad := padL_ne_pct 4 p.year
  simp only [subTable, List.foldl_cons, List.foldl_nil]
  rw [replaceL_pair_ne 'v' 'Y' _ (by decide)]
  rw [replaceL_pair_ne 'i' 'Y' _ (by decide)]
  rw [replaceL_pair_ne 'y' 'Y' _ (by decide)]
  rw [replaceL_token_self _ _ (by simp)]
  iterate 7 rw [replaceL_no_percent _ _ _ hpad]

theorem render_pM (p : NameParts) :
    (subTable p).foldl (fun n pr => replaceL pr.1 pr.2 n) ['%', 'M']
      = padL 2 p.month := by
  have hpad := padL_ne_pct 2 p.month
  simp only [subTable, List.foldl_cons, List.foldl_nil]
  rw [replaceL_pair_ne 'v' 'M' _ (by decide)]
  rw [replaceL_pair_ne 'i' 'M' _ (by decide)]
  rw [replaceL_pair_ne 'y' 'M' _ (by decide)]
  rw [replaceL_pair_ne 'Y' 'M' _ (by decide)]
  rw [replaceL_token_self _ _ (by simp)]
  iterate 6 rw [replaceL_no_percent _ _ _ hpad]

theorem render_pD (p : NameParts) :
    (subTable p).foldl (fun n pr => replaceL pr.1 pr.2 n) ['%', 'D']
      = padL 2 p.day := by
  have hpad := padL_ne_pct 2 p.day
  simp only [subTable, List.foldl_cons, List.foldl_nil]
  rw [replaceL_pair_ne 'v' 'D' _ (by decide)]
  rw [replaceL_pair_ne 'i' 'D' _ (by decide)]
  rw [replaceL_pair_ne 'y' 'D' _ (by decide)]
  rw [replaceL_pair_ne 'Y' 'D' _ (by decide)]
  rw [replaceL_pair_ne 'M' 'D' _ (by decide)]
  rw [replaceL_token_self _ _ (by simp)]
  iterate 5 rw [replaceL_no_percent _ _ _ hpad]

theorem render_ph (p : NameParts) :
    (subTable p).foldl (fun n pr => replaceL pr.1 pr.2 n) ['%', 'h']
      = padL 2 p.hour := by
  have hpad := padL_ne_pct 2 p.hour
  simp only [subTable, List.foldl_cons, List.foldl_nil]
  rw [replaceL_pair_ne 'v' 'h' _ (by decide)]
  rw [replaceL_pair_ne 'i' 'h' _ (by decide)]
  rw [replaceL_pair_ne 'y' 'h' _ (by decide)]
  rw [replaceL_pair_ne 'Y' 'h' _ (by decide)]
  rw [replaceL_pair_ne 'M' 'h' _ (by decide)]
  rw [replaceL_pair_ne 'D' 'h' _ (by decide)]
  rw [replaceL_token_self _ _ (by simp)]
  iterate 4 rw [replaceL_no_percent _ _ _ hpad]

theorem render_pm (p : NameParts) :
    (subTable p).foldl (fun n pr => replaceL pr.1 pr.2 n) ['%', 'm']
      = padL 2 p.minute := by
  have hpad := padL_ne_pct 2 p.minute
  simp only [subTable, List.foldl_cons, List.foldl_nil]
  rw [replaceL_pair_ne 'v' 'm' _ (by decide)]
  rw [replaceL_pair_ne 'i' 'm' _ (by decide)]
  rw [replaceL_pair_ne 'y' 'm' _ (by decide)]
  rw [replaceL_pair_ne 'Y' 'm' _ (by decide)]
  rw [replaceL_pair_ne 'M' 'm' _ (by decide)]
  rw [replaceL_pair_ne 'D' 'm' _ (by decide)]
  rw [replaceL_pair_ne 'h' 'm' _ (by decide)]
  rw [replaceL_token_self _ _ (by simp)]
  iterate 3 rw [replaceL_no_percent _ _ _ hpad]

theorem render_ps (p : NameParts) :
    (subTable p).foldl (fun n pr => replaceL pr.1 pr.2 n) ['%', 's']
      = padL 2 p.second := by
  have hpad := padL_ne_pct 2 p.second
  simp only [subTable, List.foldl_cons, List.foldl_nil]
  rw [replaceL_pair_ne 'v' 's' _ (by decide)]
  rw [replaceL_pair_ne 'i' 's' _ (by decide)]
  rw [replaceL_pair_ne 'y' 's' _ (by decide)]
  rw [replaceL_pair_ne 'Y' 's' _ (by decide)]
  rw [replaceL_pair_ne 'M' 's' _ (by decide)]
  rw [replaceL_pair_ne 'D' 's' _ (by decide)]
  rw [replaceL_pair_ne 'h' 's' _ (by decide)]
  rw [replaceL_pair_ne 'm' 's' _ (by decide)]
  rw [replaceL_token_self _ _ (by simp)]
  iterate 2 rw [replaceL_no_percent _ _ _ hpad]

theorem render_pu (p : NameParts) :
    (subTable p).foldl (fun n pr => replaceL pr.1 pr.2 n) ['%', 'u']
      = padL 3 p.millisecond := by
  have hpad := padL_ne_pct 3 p.millisecond
  simp only [subTable, List.foldl_cons, List.foldl_nil]
  rw [replaceL_pair_ne 'v' 'u' _ (by decide)]
  rw [replaceL_pair_ne 'i' 'u' _ (by decide)]
  rw [replaceL_pair_ne 'y' 'u' _ (by decide)]
  rw [replaceL_pair_ne 'Y' 'u' _ (by decide)]
  rw [replaceL_pair_ne 'M' 'u' _ (by decide)]
  rw [replaceL_pair_ne 'D' 'u' _ (by decide)]
  rw [replaceL_pair_ne 'h' 'u' _ (by decide)]
  rw [replaceL_pair_ne 'm' 'u' _ (by decide)]
  rw [replaceL_pair_ne 's' 'u' _ (by decide)]
  rw [replaceL_token_self _ _ (by simp)]
  iterate 1 rw [replaceL_no_percent _ _ _ hpad]

theorem render_pctpct (p : NameParts) :
    (subTable p).foldl (fun n pr => replaceL pr.1 pr.2 n) ['%', '%'] = ['%'] := by
  simp only [subTable, List.foldl_cons, List.foldl_nil]
  rw [replaceL_pair_ne 'v' '%' _ (by decide)]
  rw [replaceL_pair_ne 'i' '%' _ (by decide)]
  rw [replaceL_pair_ne 'y' '%' _ (by decide)]
  rw [replaceL_pair_ne 'Y' '%' _ (by decide)]
  rw [replaceL_pair_ne 'M' '%' _ (by decide)]
  rw [replaceL_pair_ne 'D' '%' _ (by decide)]
  rw [replaceL_pair_ne 'h' '%' _ (by decide)]
  rw [replaceL_pair_ne 'm' '%' _ (by decide)]
  rw [replaceL_pair_ne 's' '%' _ (by decide)]
  rw [replaceL_pair_ne 'u' '%' _ (by decide)]
  rw [replaceL_token_self _ _ (by simp)]

theorem render_pct (p : NameParts) :
    (subTable p).foldl (fun n pr => replaceL pr.1 pr.2 n) ['%'] = ['%'] := by
  simp only [subTable, List.foldl_cons, List.foldl_nil]
  iterate 11 rw [replaceL_pct_single]

/-- Claim C8: `make_filename` substitutes each token of the grammar with
its value (`%v`/`%i` as 4-digit indices, `%y`/`%Y` as 2- or 4-digit year,
`%M %D %h %m %s` 2-digit, `%u` 3-digit), `%%` is applied last so the
template `%%` renders to exactly one `%`, and text produced by a
substitution is never re-expanded (each single-token template renders to
exactly its value, and a bare `%` survives rendering unchanged). -/
theorem make_filename_tokens (p : NameParts) :
    make_filename p "%v" = (padL 4 p.video_file_index).asString
    ∧ make_filename p "%i" = (padL 4 p.still_image_index).asString
    ∧ make_filename p "%y" = ((padL 4 p.year).drop 2).asString
    ∧ make_filename p "%Y" = (padL 4 p.year).asString
    ∧ make_filename p "%M" = (padL 2 p.month).asString
    ∧ make_filename p "%D" = (padL 2 p.day).asString
    ∧ make_filename p "%h" = (padL 2 p.hour).asString
    ∧ make_filename p "%m" = (padL 2 p.minute).asString
    ∧ make_filename p "%s" = (padL 2 p.second).asString
    ∧ make_filename p "%u" = (padL 3 p.millisecond).asString
    ∧ make_filename p "%%" = "%"
    ∧ make_filename p "%" = "%" :=
  ⟨congrArg List.asString (render_pv p),
   congrArg List.asString (render_pi p),
   congrArg List.asString (render_py p),
   congrArg List.asString (render_pY4 p),
   congrArg List.asString (render_pM p),
   congrArg List.asString (render_pD p),
   congrArg List.asString (render_ph p),
   congrArg List.asString (render_pm p),
   congrArg List.asString (render_ps p),
   congrArg List.asString (render_pu p),
   congrArg List.asString (render_pctpct p),
   congrArg List.asString (render_pct p)⟩
